import Mathlib

/-!
Verification development for the chat windowed-pagination and scroll-anchoring
engine (`ChatScrollManager`).  The definitions below are a shallow embedding of
the manager's state and operations:

* JS `number` geometry (pixel offsets, heights) is modelled by `ℚ`;
* `bigint` timestamps are modelled by `Int`;
* the mutable class instance is modelled by the record `Manager`, and each
  method becomes a pure state-transition function;
* the backing store (`MessageLiveQueryInterface`) is modelled by passing the
  result rows of a query explicitly to the completion of each asynchronous
  step, and `updateSelection` query strings are modelled by the structured
  `Selection` record (filter anchor, ORDER BY direction, LIMIT);
* JS object/array reference identity (needed only by the snapshot publisher)
  is modelled by an allocation counter (`ref` / `messagesRef` fields).

An async method (`loadMore`) is split into its synchronous prefix
(`loadMoreBegin`, everything before the `await`) and its continuations
(`loadMoreSuccess` / `loadMoreFail`); `loadMore` composes them for a whole
cycle, also returning the list of selections passed to `updateSelection`.
-/

/-- Display/pagination mode: `type ScrollMode = 'live' | 'backward' | 'forward'`. -/
inductive ScrollMode
  | live
  | backward
  | forward
deriving DecidableEq, Repr

/-- Direction argument of `loadMore` (also the non-`false` values of `_loading`). -/
inductive PageDir
  | backward
  | forward
deriving DecidableEq, Repr

/-- ORDER BY direction of the current query (`currentDirection: 'ASC' | 'DESC'`). -/
inductive Dir
  | ASC
  | DESC
deriving DecidableEq, Repr

/-- Comparison operator of a continuation filter (`op = isBackward ? '<=' : '>='`). -/
inductive CmpOp
  | le
  | ge
deriving DecidableEq, Repr

/-- Message row: stable unique id plus comparable ordering key (`timestamp()`). -/
structure Msg where
  id : Nat
  timestamp : Int
deriving DecidableEq, Repr

/-- Mirror of the `ScrollMetrics` interface. -/
structure ScrollMetrics where
  topGap : ℚ
  bottomGap : ℚ
  minBuffer : ℚ
  resultCount : Nat
deriving DecidableEq, Repr

/-- Structured form of the selection strings passed to `updateSelection` /
`query`: `anchor = some (op, t)` models `AND timestamp op t`, `none` models the
canonical live filter with no timestamp bound; `order` and `limit` model the
`ORDER BY timestamp _ LIMIT _` clause. -/
structure Selection where
  anchor : Option (CmpOp × Int)
  order : Dir
  limit : Nat
deriving DecidableEq, Repr

/-- Mutable state of `ChatScrollManager` (the fields the pagination logic reads
or writes; the FlatList ref and subscription plumbing carry no pagination
state). -/
structure Manager where
  mode : ScrollMode
  loading : Option PageDir
  metrics : ScrollMetrics
  messages : List Msg
  displayMessages : List Msg
  error : Option String
  currentLimit : Nat
  currentDirection : Dir
  lastContinuationTimestamp : Option Int
  viewportHeight : ℚ
  contentHeight : ℚ
  scrollOffset : ℚ
  userScrolling : Bool
deriving DecidableEq, Repr

/-- Configuration constant `minBufferRatio = 0.75`. -/
def minBufferRatio : ℚ := 0.75

/-- Configuration constant `querySize = 3.0`. -/
def querySize : ℚ := 3.0

/-- Configuration constant `estimatedRowHeight = 74`. -/
def estimatedRowHeight : ℚ := 74

/-- `computeLimit()`: `Math.max(20, Math.ceil(viewportHeight * querySize / estimatedRowHeight))`. -/
def computeLimit (m : Manager) : Nat :=
  max 20 (⌈m.viewportHeight * querySize / estimatedRowHeight⌉.toNat)

/-- The `changed` test of `refreshMessages`: lengths differ, or some position
holds a row with a different id (when the lengths agree the JS `some` callback
always finds `existing`, so the loop is a pairwise comparison). -/
def messagesChanged (items msgs : List Msg) : Prop :=
  items.length ≠ msgs.length ∨ ∃ p ∈ items.zip msgs, p.1.id ≠ p.2.id

instance (items msgs : List Msg) : Decidable (messagesChanged items msgs) :=
  inferInstanceAs (Decidable (_ ∨ _))

/-- `refreshMessages()`, with the rows currently in the live resultset passed
in as `items`.  Replaces `_messages`, updates `resultCount`, and recomputes the
cached display order (`_mode !== 'forward'` shows the DESC page reversed). -/
def refreshMessages (m : Manager) (items : List Msg) : Manager :=
  if messagesChanged items m.messages then
    { m with
      messages := items
      metrics := { m.metrics with resultCount := items.length }
      displayMessages := if m.mode ≠ ScrollMode.forward then items.reverse else items }
  else m

/-- Getter `atEarliest`: DESC queries hit oldest when count < limit. -/
def atEarliest (m : Manager) : Prop :=
  m.currentDirection = Dir.DESC ∧ m.messages.length < m.currentLimit

instance (m : Manager) : Decidable (atEarliest m) :=
  inferInstanceAs (Decidable (_ ∧ _))

/-- Getter `atLatest`: live mode is always at latest; ASC queries hit newest
when count < limit. -/
def atLatest (m : Manager) : Prop :=
  m.mode = ScrollMode.live ∨
    (m.currentDirection = Dir.ASC ∧ m.messages.length < m.currentLimit)

instance (m : Manager) : Decidable (atLatest m) :=
  inferInstanceAs (Decidable (_ ∨ _))

/-- Getter `shouldAutoScroll`: `_mode === 'live' && _metrics.bottomGap < 50`. -/
def shouldAutoScroll (m : Manager) : Prop :=
  m.mode = ScrollMode.live ∧ m.metrics.bottomGap < 50

instance (m : Manager) : Decidable (shouldAutoScroll m) :=
  inferInstanceAs (Decidable (_ ∧ _))

/-- Payload of a native scroll event (`contentOffset.y`, `contentSize.height`,
`layoutMeasurement.height`). -/
structure ScrollEventData where
  contentOffsetY : ℚ
  contentHeight : ℚ
  layoutHeight : ℚ
deriving DecidableEq, Repr

/-- `onScroll(event)`: updates geometry and metrics, and on a user-initiated
scroll decides whether to call `loadMore` (the returned `Option PageDir` is the
direction of the triggered call, `none` when no load is triggered). -/
def onScroll (m : Manager) (e : ScrollEventData) : Manager × Option PageDir :=
  let scrollDelta := e.contentOffsetY - m.scrollOffset
  let topGap := e.contentOffsetY
  let bottomGap := e.contentHeight - e.contentOffsetY - e.layoutHeight
  let minBuffer := e.layoutHeight * minBufferRatio
  let m₁ := { m with
    scrollOffset := e.contentOffsetY
    contentHeight := e.contentHeight
    viewportHeight := e.layoutHeight
    metrics := { topGap := topGap, bottomGap := bottomGap, minBuffer := minBuffer,
                 resultCount := m.messages.length } }
  if m₁.userScrolling then
    let m₂ := { m₁ with userScrolling := false }
    if scrollDelta < 0 ∧ topGap < minBuffer ∧ ¬ atEarliest m₂ ∧
        m₂.loading ≠ some PageDir.backward then
      (m₂, some PageDir.backward)
    else if scrollDelta > 0 ∧ bottomGap < minBuffer ∧ ¬ atLatest m₂ ∧
        m₂.loading ≠ some PageDir.forward then
      (m₂, some PageDir.forward)
    else (m₂, none)
  else (m₁, none)

/-- The `ScrollMode` a `loadMore(direction)` call sets (`this._mode = direction`). -/
def pageMode : PageDir → ScrollMode
  | PageDir.backward => ScrollMode.backward
  | PageDir.forward => ScrollMode.forward

/-- Anchor row of a continuation: `messageList[0]` for backward,
`messageList[messageList.length - 1]` for forward, over the display order. -/
def anchorMsg (m : Manager) (d : PageDir) : Option Msg :=
  if d = PageDir.backward then m.displayMessages.head? else m.displayMessages.getLast?

/-- Timestamp of the continuation anchor. -/
def anchorTs (m : Manager) (d : PageDir) : Option Int :=
  (anchorMsg m d).map Msg.timestamp

/-- Synchronous prefix of `loadMore(direction)`: the empty-window guards, the
duplicate-continuation guard, the optimistic state flip (`_loading`, `_mode`,
`lastContinuationTimestamp`, display cache), and the continuation selection
passed to `updateSelection` (`none` when the call returns early). -/
def loadMoreBegin (m : Manager) (d : PageDir) : Manager × Option Selection :=
  if m.messages.length = 0 then (m, none)
  else
    match anchorMsg m d with
    | none => (m, none)
    | some anchor =>
      if m.lastContinuationTimestamp = some anchor.timestamp then (m, none)
      else
        let m' := { m with
          loading := some d
          mode := pageMode d
          lastContinuationTimestamp := some anchor.timestamp
          displayMessages :=
            if pageMode d ≠ ScrollMode.forward then m.messages.reverse
            else m.messages }
        (m', some {
          anchor := some
            (if d = PageDir.backward then CmpOp.le else CmpOp.ge, anchor.timestamp)
          order := if d = PageDir.backward then Dir.DESC else Dir.ASC
          limit := computeLimit m' })

/-- `setLiveMode()`, with the rows of the re-issued canonical live query passed
in as `liveItems`; also returns the canonical selection it issues. -/
def setLiveMode (m : Manager) (liveItems : List Msg) : Manager × Selection :=
  let m₁ := { m with
    mode := ScrollMode.live
    lastContinuationTimestamp := none
    loading := none
    displayMessages := m.messages.reverse }
  let limit := computeLimit m₁
  let m₂ := { m₁ with currentLimit := limit, currentDirection := Dir.DESC }
  (refreshMessages m₂ liveItems, { anchor := none, order := Dir.DESC, limit := limit })

/-- Continuation of `loadMore` after `updateSelection` resolves: commits
`currentLimit`/`currentDirection`, refreshes from the fetched rows, switches to
live mode when `atLatest` holds (returning the extra canonical selection), and
in all cases ends with the `finally` reset of `_loading`. -/
def loadMoreSuccess (m : Manager) (sel : Selection) (fetched liveItems : List Msg) :
    Manager × Option Selection :=
  let m₁ := { m with currentLimit := sel.limit, currentDirection := sel.order }
  let m₂ := refreshMessages m₁ fetched
  if atLatest m₂ then
    let r := setLiveMode m₂ liveItems
    ({ r.1 with loading := none }, some r.2)
  else
    ({ m₂ with loading := none }, none)

/-- Continuation of `loadMore` after `updateSelection` rejects: the `catch`
block only logs to the console, the `finally` block resets `_loading`. -/
def loadMoreFail (m : Manager) : Manager :=
  { m with loading := none }

/-- Outcome of the asynchronous part of a `loadMore` cycle: the continuation
query rejects, or it resolves with rows `fetched` (and, if the cycle then
catches up to live, the canonical query resolves with rows `liveItems`). -/
inductive ProviderOutcome
  | fail
  | ok (fetched : List Msg) (liveItems : List Msg)
deriving DecidableEq, Repr

/-- A whole `loadMore(direction)` cycle; the second component lists the
selections passed to `updateSelection` during the cycle. -/
def loadMore (m : Manager) (d : PageDir) (out : ProviderOutcome) :
    Manager × List Selection :=
  match loadMoreBegin m d with
  | (m', none) => (m', [])
  | (m', some sel) =>
    match out with
    | ProviderOutcome.fail => (loadMoreFail m', [sel])
    | ProviderOutcome.ok fetched liveItems =>
      let r := loadMoreSuccess m' sel fetched liveItems
      (r.1, sel :: r.2.toList)

/-- State right after the constructor and `initQuery` when the initial live
query returns zero rows (the empty feed): defaults from the field
initializers, then `currentLimit = computeLimit()`, `currentDirection =
'DESC'`, and a `refreshMessages` that finds no change. -/
def initManager : Manager :=
  let m₀ : Manager := {
    mode := ScrollMode.live
    loading := none
    metrics := { topGap := 0, bottomGap := 0, minBuffer := 0, resultCount := 0 }
    messages := []
    displayMessages := []
    error := none
    currentLimit := 50
    currentDirection := Dir.DESC
    lastContinuationTimestamp := none
    viewportHeight := 600
    contentHeight := 0
    scrollOffset := 0
    userScrolling := false }
  { m₀ with currentLimit := computeLimit m₀, currentDirection := Dir.DESC }

/-! The snapshot publisher (`updateSnapshot` / `getSnapshot`).  The observable
fields are the `messages` getter (an array compared by reference, modelled by
an allocation id), `_mode`, `_loading` and `shouldAutoScroll`.  A fresh
snapshot object gets the next allocation id. -/

/-- Observable fields compared by `updateSnapshot`. -/
structure SnapFields where
  messagesRef : Nat
  mode : ScrollMode
  loading : Option PageDir
  shouldAutoScroll : Bool
deriving DecidableEq, Repr

/-- A `ManagerSnapshot` object; `ref` is its identity. -/
structure Snapshot where
  ref : Nat
  fields : SnapFields
deriving DecidableEq, Repr

/-- State of the snapshot publisher: current observable fields, the cached
`_snapshot`, and the allocation counter. -/
structure Publisher where
  fields : SnapFields
  snapshot : Option Snapshot
  nextRef : Nat
deriving DecidableEq, Repr

/-- `updateSnapshot()`: only create a new snapshot object if a value changed. -/
def updateSnapshot (p : Publisher) : Publisher :=
  match p.snapshot with
  | none =>
    { p with snapshot := some ⟨p.nextRef, p.fields⟩, nextRef := p.nextRef + 1 }
  | some s =>
    if s.fields.mode ≠ p.fields.mode ∨ s.fields.loading ≠ p.fields.loading ∨
        s.fields.shouldAutoScroll ≠ p.fields.shouldAutoScroll ∨
        s.fields.messagesRef ≠ p.fields.messagesRef then
      { p with snapshot := some ⟨p.nextRef, p.fields⟩, nextRef := p.nextRef + 1 }
    else p

/-- `getSnapshot()`: materialize the cache if absent, then return it (the
final `match` arm for `none` models the JS non-null assertion `_snapshot!` and
is unreachable after `updateSnapshot`). -/
def getSnapshot (p : Publisher) : Snapshot × Publisher :=
  let p' := match p.snapshot with
    | none => updateSnapshot p
    | some _ => p
  match p'.snapshot with
  | some s => (s, p')
  | none => (⟨p'.nextRef, p'.fields⟩, p')

/-! Helper lemmas about the embedded operations. -/

theorem messagesChanged_not_length {items msgs : List Msg}
    (h : ¬ messagesChanged items msgs) : items.length = msgs.length := by
  unfold messagesChanged at h
  push_neg at h
  exact h.1

@[simp] theorem refreshMessages_mode (m : Manager) (items : List Msg) :
    (refreshMessages m items).mode = m.mode := by
  unfold refreshMessages; split <;> rfl

@[simp] theorem refreshMessages_loading (m : Manager) (items : List Msg) :
    (refreshMessages m items).loading = m.loading := by
  unfold refreshMessages; split <;> rfl

@[simp] theorem refreshMessages_error (m : Manager) (items : List Msg) :
    (refreshMessages m items).error = m.error := by
  unfold refreshMessages; split <;> rfl

@[simp] theorem refreshMessages_lastCT (m : Manager) (items : List Msg) :
    (refreshMessages m items).lastContinuationTimestamp = m.lastContinuationTimestamp := by
  unfold refreshMessages; split <;> rfl

@[simp] theorem refreshMessages_currentDirection (m : Manager) (items : List Msg) :
    (refreshMessages m items).currentDirection = m.currentDirection := by
  unfold refreshMessages; split <;> rfl

@[simp] theorem refreshMessages_currentLimit (m : Manager) (items : List Msg) :
    (refreshMessages m items).currentLimit = m.currentLimit := by
  unfold refreshMessages; split <;> rfl

@[simp] theorem refreshMessages_viewportHeight (m : Manager) (items : List Msg) :
    (refreshMessages m items).viewportHeight = m.viewportHeight := by
  unfold refreshMessages; split <;> rfl

@[simp] theorem refreshMessages_length (m : Manager) (items : List Msg) :
    (refreshMessages m items).messages.length = items.length := by
  unfold refreshMessages; split
  · rfl
  · next h => exact (messagesChanged_not_length h).symm

theorem computeLimit_congr {m m' : Manager} (h : m.viewportHeight = m'.viewportHeight) :
    computeLimit m = computeLimit m' := by
  unfold computeLimit; rw [h]

theorem computeLimit_eq_20 (m : Manager) (h : m.viewportHeight = 400) :
    computeLimit m = 20 := by
  rw [computeLimit, h, querySize, estimatedRowHeight]
  norm_num [show ⌈(600:ℚ)/37⌉ = 17 by rw [Int.ceil_eq_iff]; constructor <;> norm_num]

/-- State after the synchronous prefix of a `loadMore d` call that passes all
guards with anchor row `a`. -/
def beginState (m : Manager) (d : PageDir) (a : Msg) : Manager :=
  { m with
    loading := some d
    mode := pageMode d
    lastContinuationTimestamp := some a.timestamp
    displayMessages :=
      if pageMode d ≠ ScrollMode.forward then m.messages.reverse else m.messages }

/-- Continuation selection issued by a `loadMore d` call that passes all guards
with anchor row `a`. -/
def beginSel (m : Manager) (d : PageDir) (a : Msg) : Selection :=
  { anchor := some (if d = PageDir.backward then CmpOp.le else CmpOp.ge, a.timestamp)
    order := if d = PageDir.backward then Dir.DESC else Dir.ASC
    limit := computeLimit m }

theorem loadMoreBegin_proceeds (m : Manager) (d : PageDir) (a : Msg)
    (hne : m.messages.length ≠ 0) (ha : anchorMsg m d = some a)
    (hdedup : m.lastContinuationTimestamp ≠ some a.timestamp) :
    loadMoreBegin m d = (beginState m d a, some (beginSel m d a)) := by
  unfold loadMoreBegin
  rw [if_neg hne, ha]
  simp only [if_neg hdedup]
  unfold beginState beginSel
  simp [computeLimit]

theorem setLiveMode_fst_mode (m : Manager) (liveItems : List Msg) :
    (setLiveMode m liveItems).1.mode = ScrollMode.live := by
  unfold setLiveMode
  simp

theorem setLiveMode_snd (m : Manager) (liveItems : List Msg) :
    (setLiveMode m liveItems).2 =
      { anchor := none, order := Dir.DESC, limit := computeLimit m } := by
  unfold setLiveMode
  simp [computeLimit]

/-! Concrete rows and states used as inputs of witnesses and counterexamples. -/

/-- Concrete row with id 1 and timestamp 5. -/
def msg1 : Msg := ⟨1, 5⟩

/-- Concrete row with id 2 and timestamp 10. -/
def msg2 : Msg := ⟨2, 10⟩

/-- Builder for concrete manager states (viewport 400, hence
`computeLimit = 20`). -/
def mkManager (mode : ScrollMode) (loading : Option PageDir) (msgs disp : List Msg)
    (dir : Dir) (lim : Nat) (lastCT : Option Int) (scrolling : Bool) : Manager :=
  { mode := mode
    loading := loading
    metrics := { topGap := 0, bottomGap := 0, minBuffer := 0, resultCount := msgs.length }
    messages := msgs
    displayMessages := disp
    error := none
    currentLimit := lim
    currentDirection := dir
    lastContinuationTimestamp := lastCT
    viewportHeight := 400
    contentHeight := 800
    scrollOffset := 100
    userScrolling := scrolling }

/-! Claim theorems. -/

/-- C3: two `getSnapshot()` calls with no intervening committed state change
(no state mutation and no `notify`/`updateSnapshot` between them) return the
same snapshot object (same allocation `ref`) and leave the publisher unchanged,
and `updateSnapshot` creates a new snapshot object only when at least one
observable field (messages array identity, mode, loading, shouldAutoScroll)
differs from the cached snapshot: when none differs the cache is kept as is. -/
theorem claim_C3_snapshot_stability (p : Publisher) :
    getSnapshot (getSnapshot p).2 = getSnapshot p ∧
    (∀ s : Snapshot, p.snapshot = some s → s.fields = p.fields →
      updateSnapshot p = p) := by
  constructor
  · rcases p with ⟨f, snap, n⟩
    cases snap with
    | none => simp [getSnapshot, updateSnapshot]
    | some s => simp [getSnapshot]
  · intro s hs hf
    rcases p with ⟨f, snap, n⟩
    cases hs
    simp only at hf
    simp [updateSnapshot, hf]

/-- Witness for C3 at a concrete publisher whose cached snapshot matches the
current fields. -/
theorem claim_C3_snapshot_stability_witness :
    getSnapshot (getSnapshot (Publisher.mk ⟨0, ScrollMode.live, none, true⟩
        (some ⟨0, ⟨0, ScrollMode.live, none, true⟩⟩) 1)).2 =
      getSnapshot (Publisher.mk ⟨0, ScrollMode.live, none, true⟩
        (some ⟨0, ⟨0, ScrollMode.live, none, true⟩⟩) 1) ∧
    updateSnapshot (Publisher.mk ⟨0, ScrollMode.live, none, true⟩
        (some ⟨0, ⟨0, ScrollMode.live, none, true⟩⟩) 1) =
      Publisher.mk ⟨0, ScrollMode.live, none, true⟩
        (some ⟨0, ⟨0, ScrollMode.live, none, true⟩⟩) 1 :=
  ⟨(claim_C3_snapshot_stability _).1,
   (claim_C3_snapshot_stability _).2 ⟨0, ⟨0, ScrollMode.live, none, true⟩⟩ rfl rfl⟩

/-- C8: on the empty feed (initial live query returns zero rows) the mode is
`live`, `shouldAutoScroll` holds, a poll refresh with the empty resultset is a
no-op, and `loadMore` in either direction returns without issuing any provider
query and without any state change (the `_messages.length === 0` guard returns
before the anchor row is ever read). -/
theorem claim_C8_empty_feed (d : PageDir) (out : ProviderOutcome) :
    initManager.mode = ScrollMode.live ∧
    shouldAutoScroll initManager ∧
    refreshMessages initManager [] = initManager ∧
    loadMore initManager d out = (initManager, []) := by
  refine ⟨rfl, ⟨rfl, by norm_num [initManager]⟩, ?_, ?_⟩
  · simp [refreshMessages, messagesChanged, initManager]
  · simp [loadMore, loadMoreBegin, initManager]

theorem loadMoreBegin_skip (m : Manager) (d : PageDir) (t : Int)
    (hlast : m.lastContinuationTimestamp = some t)
    (hanchor : anchorTs m d = some t) :
    loadMoreBegin m d = (m, none) := by
  have hex : ∃ a, anchorMsg m d = some a ∧ a.timestamp = t := by
    unfold anchorTs at hanchor
    cases ha : anchorMsg m d with
    | none => rw [ha] at hanchor; simp at hanchor
    | some a =>
      rw [ha] at hanchor
      simp only [Option.map_some', Option.some.injEq] at hanchor
      exact ⟨a, rfl, hanchor⟩
  obtain ⟨a, ha, hat⟩ := hex
  unfold loadMoreBegin
  split
  · rfl
  · rw [ha]
    simp [hlast, hat]

/-- C9: the duplicate-load guard compares only the anchor timestamp with
`lastContinuationTimestamp`: whenever the anchor row of a `loadMore d` call has
the timestamp recorded by an earlier call — whatever direction, comparison
operator and sort order that earlier cursor had — the call returns with no
state change and no `updateSelection` call. -/
theorem claim_C9_dedup_timestamp_only (m : Manager) (d : PageDir) (t : Int)
    (hlast : m.lastContinuationTimestamp = some t)
    (hanchor : anchorTs m d = some t) :
    loadMoreBegin m d = (m, none) :=
  loadMoreBegin_skip m d t hlast hanchor

/-- Witness for C9: after a backward continuation anchored at timestamp 5, a
forward call whose anchor has the same timestamp — a different cursor (operator
`>=`, order ASC) — is skipped. -/
theorem claim_C9_dedup_timestamp_only_witness :
    loadMoreBegin
        (mkManager ScrollMode.backward none [msg1] [msg1] Dir.DESC 20 (some 5) false)
        PageDir.forward =
      (mkManager ScrollMode.backward none [msg1] [msg1] Dir.DESC 20 (some 5) false,
       none) :=
  claim_C9_dedup_timestamp_only _ PageDir.forward 5 rfl rfl

/-- C10: after a `loadMore` whose continuation query rejects, only `_loading`
is reset: the final state is exactly the post-guard optimistic state with
`loading := none`, so `_mode` remains the attempted paging direction and
`lastContinuationTimestamp` remains the failed cycle's anchor timestamp —
neither is rolled back to its pre-call value. -/
theorem claim_C10_failure_frame (m : Manager) (d : PageDir) (a : Msg)
    (hne : m.messages.length ≠ 0) (ha : anchorMsg m d = some a)
    (hdedup : m.lastContinuationTimestamp ≠ some a.timestamp) :
    loadMore m d ProviderOutcome.fail =
      ({ beginState m d a with loading := none }, [beginSel m d a]) ∧
    (loadMore m d ProviderOutcome.fail).1.mode = pageMode d ∧
    (loadMore m d ProviderOutcome.fail).1.lastContinuationTimestamp =
      some a.timestamp := by
  have hrun : loadMore m d ProviderOutcome.fail =
      ({ beginState m d a with loading := none }, [beginSel m d a]) := by
    simp [loadMore, loadMoreBegin_proceeds m d a hne ha hdedup, loadMoreFail]
  refine ⟨hrun, ?_, ?_⟩ <;> rw [hrun] <;> rfl

/-- Witness for C10 at a concrete live-mode state with two rows: a failed
backward continuation leaves `mode = backward` and the anchor timestamp 5. -/
theorem claim_C10_failure_frame_witness :
    loadMore (mkManager ScrollMode.live none [msg2, msg1] [msg1, msg2]
        Dir.DESC 20 none false) PageDir.backward ProviderOutcome.fail =
      ({ beginState (mkManager ScrollMode.live none [msg2, msg1] [msg1, msg2]
            Dir.DESC 20 none false) PageDir.backward msg1 with loading := none },
       [beginSel (mkManager ScrollMode.live none [msg2, msg1] [msg1, msg2]
            Dir.DESC 20 none false) PageDir.backward msg1]) ∧
    (loadMore (mkManager ScrollMode.live none [msg2, msg1] [msg1, msg2]
        Dir.DESC 20 none false) PageDir.backward ProviderOutcome.fail).1.mode =
      pageMode PageDir.backward ∧
    (loadMore (mkManager ScrollMode.live none [msg2, msg1] [msg1, msg2]
        Dir.DESC 20 none false) PageDir.backward
        ProviderOutcome.fail).1.lastContinuationTimestamp = some msg1.timestamp :=
  claim_C10_failure_frame _ PageDir.backward msg1 (by decide) rfl (by decide)

/-- Forward-mode state (ascending window `[msg1, msg2]`, `currentDirection =
ASC`) whose recorded continuation timestamp (12) matches neither window edge —
the situation after the anchor row of the previous forward page was deleted
from the store and the live resultset refreshed. -/
def csForward : Manager :=
  mkManager ScrollMode.forward none [msg1, msg2] [msg1, msg2] Dir.ASC 20 (some 12) false

/-- Counterexample to C1 as stated: a backward continuation from `csForward`
rejects; a provider query was issued, yet the manager's error field stays
`none` (nothing is surfaced — the snapshot record has no error field at all and
the `catch` block only logs), and the displayed window after the failure
differs from the pre-query displayed window (the optimistic mode flip reversed
it). -/
theorem claim_C1_counterexample :
    (loadMore csForward PageDir.backward ProviderOutcome.fail).2 ≠ [] ∧
    (loadMore csForward PageDir.backward ProviderOutcome.fail).1.loading = none ∧
    (loadMore csForward PageDir.backward ProviderOutcome.fail).1.error = none ∧
    csForward.error = none ∧
    (loadMore csForward PageDir.backward ProviderOutcome.fail).1.displayMessages ≠
      csForward.displayMessages := by
  decide

/-- C1 amended: a rejected continuation query is caught at the controller
boundary; `loading` resets to `false`; the backing row list, the metrics and
the error field are all left exactly as before the call (so the error is only
logged, never surfaced through the snapshot, which carries no error channel);
the displayed window is not rolled back but re-derived from the unchanged rows
under the optimistically-set paging mode — identical to the pre-query display
except when the call reversed direction out of `forward` mode, where the
display order flips. -/
theorem claim_C1_amended (m : Manager) (d : PageDir) (a : Msg)
    (hne : m.messages.length ≠ 0) (ha : anchorMsg m d = some a)
    (hdedup : m.lastContinuationTimestamp ≠ some a.timestamp) :
    (loadMore m d ProviderOutcome.fail).1.loading = none ∧
    (loadMore m d ProviderOutcome.fail).1.messages = m.messages ∧
    (loadMore m d ProviderOutcome.fail).1.metrics = m.metrics ∧
    (loadMore m d ProviderOutcome.fail).1.error = m.error ∧
    (loadMore m d ProviderOutcome.fail).1.displayMessages =
      (if pageMode d ≠ ScrollMode.forward then m.messages.reverse
       else m.messages) := by
  have hrun := loadMoreBegin_proceeds m d a hne ha hdedup
  simp [loadMore, hrun, loadMoreFail, beginState]

/-- Witness for the amended C1 at `csForward`. -/
theorem claim_C1_amended_witness :
    (loadMore csForward PageDir.backward ProviderOutcome.fail).1.loading = none ∧
    (loadMore csForward PageDir.backward ProviderOutcome.fail).1.messages =
      csForward.messages ∧
    (loadMore csForward PageDir.backward ProviderOutcome.fail).1.metrics =
      csForward.metrics ∧
    (loadMore csForward PageDir.backward ProviderOutcome.fail).1.error =
      csForward.error ∧
    (loadMore csForward PageDir.backward ProviderOutcome.fail).1.displayMessages =
      (if pageMode PageDir.backward ≠ ScrollMode.forward then
        csForward.messages.reverse else csForward.messages) :=
  claim_C1_amended csForward PageDir.backward msg1 (by decide) rfl (by decide)

/-- Backward-mode state with a backward continuation still in flight
(`loading = backward`, anchored at timestamp 5), user drag started. -/
def csMidBackward : Manager :=
  mkManager ScrollMode.backward (some PageDir.backward) [msg2, msg1] [msg1, msg2]
    Dir.DESC 20 (some 5) true

/-- Downward scroll event: offset 110 (delta +10 from the builder's offset
100), content 800, viewport 400 — bottom gap 290 < threshold 300. -/
def evDown : ScrollEventData := ⟨110, 800, 400⟩

/-- Counterexample to C2 as stated: while a backward continuation is in flight
(`loading = 'backward'`), a downward scroll event still triggers
`loadMore('forward')`, and that call passes every guard (an `updateSelection`
call is issued) — so a second pagination cycle starts while the first is in
flight. -/
theorem claim_C2_counterexample :
    csMidBackward.loading = some PageDir.backward ∧
    (onScroll csMidBackward evDown).2 = some PageDir.forward ∧
    (loadMoreBegin (onScroll csMidBackward evDown).1 PageDir.forward).2.isSome
      = true := by
  refine ⟨rfl, ?_, ?_⟩ <;>
    (norm_num [onScroll, csMidBackward, mkManager, evDown, atEarliest, atLatest,
      minBufferRatio, loadMoreBegin, anchorMsg, msg1, msg2]; decide)

/-- C2 amended: the scroll trigger is guarded per direction, not by a global
`loading === false`: a scroll event triggers `loadMore d` only when the user
is dragging, `loading ≠ d`, and the boundary for `d` is not reached — so a
load in the opposite direction may still start while one is in flight. -/
theorem claim_C2_amended (m : Manager) (e : ScrollEventData) (d : PageDir)
    (h : (onScroll m e).2 = some d) :
    m.userScrolling = true ∧ m.loading ≠ some d ∧
    (d = PageDir.backward → ¬ atEarliest m) ∧
    (d = PageDir.forward → ¬ atLatest m) := by
  simp only [onScroll] at h
  split at h
  · split at h
    · next hcond =>
      simp only [Option.some.injEq] at h
      subst h
      exact ⟨by assumption, hcond.2.2.2, fun _ => hcond.2.2.1, by simp⟩
    · split at h
      · next hcond =>
        simp only [Option.some.injEq] at h
        subst h
        exact ⟨by assumption, hcond.2.2.2, by simp, fun _ => hcond.2.2.1⟩
      · simp at h
  · simp at h

/-- Witness for the amended C2 at `csMidBackward` and `evDown` (the triggered
direction is forward, and indeed `loading ≠ forward` and the latest boundary
is not reached). -/
theorem claim_C2_amended_witness :
    csMidBackward.userScrolling = true ∧
    csMidBackward.loading ≠ some PageDir.forward ∧
    (PageDir.forward = PageDir.backward → ¬ atEarliest csMidBackward) ∧
    (PageDir.forward = PageDir.forward → ¬ atLatest csMidBackward) :=
  claim_C2_amended csMidBackward evDown PageDir.forward
    (by norm_num [onScroll, csMidBackward, mkManager, evDown, atEarliest,
      atLatest, minBufferRatio]; decide)

/-- Twenty rows in DESC order (timestamps 20 down to 1): a full live page when
`limit = 20`. -/
def msgsDesc20 : List Msg :=
  [⟨20, 20⟩, ⟨19, 19⟩, ⟨18, 18⟩, ⟨17, 17⟩, ⟨16, 16⟩, ⟨15, 15⟩, ⟨14, 14⟩,
   ⟨13, 13⟩, ⟨12, 12⟩, ⟨11, 11⟩, ⟨10, 10⟩, ⟨9, 9⟩, ⟨8, 8⟩, ⟨7, 7⟩, ⟨6, 6⟩,
   ⟨5, 5⟩, ⟨4, 4⟩, ⟨3, 3⟩, ⟨2, 2⟩, ⟨1, 1⟩]

/-- The same twenty rows in display (ascending) order. -/
def msgsAsc20 : List Msg :=
  [⟨1, 1⟩, ⟨2, 2⟩, ⟨3, 3⟩, ⟨4, 4⟩, ⟨5, 5⟩, ⟨6, 6⟩, ⟨7, 7⟩, ⟨8, 8⟩, ⟨9, 9⟩,
   ⟨10, 10⟩, ⟨11, 11⟩, ⟨12, 12⟩, ⟨13, 13⟩, ⟨14, 14⟩, ⟨15, 15⟩, ⟨16, 16⟩,
   ⟨17, 17⟩, ⟨18, 18⟩, ⟨19, 19⟩, ⟨20, 20⟩]

/-- Live-mode state whose DESC window holds exactly `limit = 20` rows (the
backing collection has exactly `limit` items), user drag started. -/
def csFullPage : Manager :=
  mkManager ScrollMode.live none msgsDesc20 msgsAsc20 Dir.DESC 20 none true

/-- Upward scroll event: offset 50 (delta −50 from the builder's offset 100),
content 2000, viewport 400 — top gap 50 < threshold 300. -/
def evUp : ScrollEventData := ⟨50, 2000, 400⟩

/-- Counterexample to C4 as stated: with exactly `limit` rows fetched DESC,
`atEarliest` is false (the code tests `length < limit`, and `limit < limit`
fails), so an upward scroll past the threshold does trigger
`loadMore('backward')`, which passes every guard and issues a provider query. -/
theorem claim_C4_counterexample :
    ¬ atEarliest csFullPage ∧
    (onScroll csFullPage evUp).2 = some PageDir.backward ∧
    (loadMoreBegin (onScroll csFullPage evUp).1 PageDir.backward).2.isSome
      = true := by
  refine ⟨by decide, ?_, ?_⟩ <;>
    (norm_num [onScroll, csFullPage, mkManager, evUp, atEarliest, atLatest,
      minBufferRatio, loadMoreBegin, anchorMsg, msgsDesc20, msgsAsc20]; decide)

/-- C4 amended: the backward boundary is reported only when the last DESC
fetch returned strictly fewer than `limit` rows; in that case `atEarliest`
holds and no scroll event ever triggers a backward load.  (With exactly
`limit` rows, the boundary is not yet reported and one further query is
issued; only after that query returns fewer than `limit` rows does the
boundary hold.) -/
theorem claim_C4_amended (m : Manager) (e : ScrollEventData)
    (hdir : m.currentDirection = Dir.DESC)
    (hlt : m.messages.length < m.currentLimit) :
    atEarliest m ∧ (onScroll m e).2 ≠ some PageDir.backward := by
  refine ⟨⟨hdir, hlt⟩, ?_⟩
  simp only [onScroll]
  split
  · split
    · next hcond => exact absurd ⟨hdir, hlt⟩ hcond.2.2.1
    · split
      · simp
      · simp
  · simp

/-- Witness for the amended C4: a two-row DESC window under `limit = 20`
reports the backward boundary, and the upward scroll event `evUp` triggers
nothing. -/
theorem claim_C4_amended_witness :
    atEarliest (mkManager ScrollMode.live none [msg2, msg1] [msg1, msg2]
      Dir.DESC 20 none true) ∧
    (onScroll (mkManager ScrollMode.live none [msg2, msg1] [msg1, msg2]
      Dir.DESC 20 none true) evUp).2 ≠ some PageDir.backward :=
  claim_C4_amended _ evUp rfl (by decide)

/-- C5: within a pagination cycle (`loadMore`), the mode transitions to `live`
exactly when the catch-up boundary holds — the continuation was issued forward
(ASC order) and the fetched count is strictly below the computed limit — and on
that transition the canonical live query (no timestamp bound, `ORDER BY
timestamp DESC`, the computed limit) is re-issued as the cycle's second
selection. -/
theorem claim_C5_live_transition (m : Manager) (d : PageDir) (a : Msg)
    (fetched liveItems : List Msg)
    (hne : m.messages.length ≠ 0) (ha : anchorMsg m d = some a)
    (hdedup : m.lastContinuationTimestamp ≠ some a.timestamp) :
    ((loadMore m d (ProviderOutcome.ok fetched liveItems)).1.mode =
        ScrollMode.live ↔
      (d = PageDir.forward ∧ fetched.length < computeLimit m)) ∧
    ((loadMore m d (ProviderOutcome.ok fetched liveItems)).1.mode =
        ScrollMode.live →
      (loadMore m d (ProviderOutcome.ok fetched liveItems)).2 =
        [beginSel m d a,
         { anchor := none, order := Dir.DESC, limit := computeLimit m }]) := by
  have hbegin := loadMoreBegin_proceeds m d a hne ha hdedup
  have hrun : loadMore m d (ProviderOutcome.ok fetched liveItems) =
      ((loadMoreSuccess (beginState m d a) (beginSel m d a) fetched liveItems).1,
       beginSel m d a ::
         (loadMoreSuccess (beginState m d a) (beginSel m d a)
           fetched liveItems).2.toList) := by
    simp [loadMore, hbegin]
  have hvp : (refreshMessages
      { beginState m d a with
        currentLimit := (beginSel m d a).limit
        currentDirection := (beginSel m d a).order } fetched).viewportHeight =
      m.viewportHeight := by
    rw [refreshMessages_viewportHeight]
    simp [beginState]
  have hcl := computeLimit_congr hvp
  have hatLatest : atLatest (refreshMessages
      { beginState m d a with
        currentLimit := (beginSel m d a).limit
        currentDirection := (beginSel m d a).order } fetched) ↔
      (d = PageDir.forward ∧ fetched.length < computeLimit m) := by
    unfold atLatest
    rw [refreshMessages_mode, refreshMessages_currentDirection,
        refreshMessages_length, refreshMessages_currentLimit]
    cases d <;> simp [beginState, beginSel, pageMode]
  rw [hrun]
  simp only [loadMoreSuccess]
  by_cases hA : d = PageDir.forward ∧ fetched.length < computeLimit m
  · rw [if_pos (hatLatest.mpr hA)]
    constructor
    · simp [setLiveMode_fst_mode, hA]
    · intro _
      rw [setLiveMode_snd, hcl]
      simp
  · rw [if_neg (fun h => hA (hatLatest.mp h))]
    constructor
    · rw [refreshMessages_mode]
      constructor
      · intro hl
        exact absurd hl (by cases d <;> simp [beginState, pageMode])
      · intro hh
        exact absurd hh hA
    · intro hl
      rw [refreshMessages_mode] at hl
      exact absurd hl (by cases d <;> simp [beginState, pageMode])

/-- Backward-mode state (DESC window `[msg2, msg1]`, dedup timestamp 5 from the
prior backward continuation). -/
def csCaughtUp : Manager :=
  mkManager ScrollMode.backward none [msg2, msg1] [msg1, msg2] Dir.DESC 20
    (some 5) false

/-- Witness for C5 at `csCaughtUp`: a forward continuation anchored at
timestamp 10 fetches one row (fewer than the limit 20), so the cycle ends in
live mode and re-issues the canonical live query. -/
theorem claim_C5_live_transition_witness :
    ((loadMore csCaughtUp PageDir.forward
        (ProviderOutcome.ok [msg2] [msg2, msg1])).1.mode = ScrollMode.live ↔
      (PageDir.forward = PageDir.forward ∧
        [msg2].length < computeLimit csCaughtUp)) ∧
    ((loadMore csCaughtUp PageDir.forward
        (ProviderOutcome.ok [msg2] [msg2, msg1])).1.mode = ScrollMode.live →
      (loadMore csCaughtUp PageDir.forward
          (ProviderOutcome.ok [msg2] [msg2, msg1])).2 =
        [beginSel csCaughtUp PageDir.forward msg2,
         { anchor := none, order := Dir.DESC, limit := computeLimit csCaughtUp }]) :=
  claim_C5_live_transition csCaughtUp PageDir.forward msg2 [msg2] [msg2, msg1]
    (by decide) rfl (by decide)

theorem loadMore_of_begin_none (m : Manager) (d : PageDir) (out : ProviderOutcome)
    (h : (loadMoreBegin m d).2 = none) :
    loadMore m d out = ((loadMoreBegin m d).1, []) := by
  rcases hb : loadMoreBegin m d with ⟨m', o⟩
  rw [hb] at h
  simp only at h
  subst h
  simp [loadMore, hb]

theorem loadMoreBegin_issued (m : Manager) (d : PageDir)
    (h : (loadMoreBegin m d).2 ≠ none) :
    ∃ a, m.messages.length ≠ 0 ∧ anchorMsg m d = some a ∧
      m.lastContinuationTimestamp ≠ some a.timestamp := by
  unfold loadMoreBegin at h
  split at h
  · simp at h
  · next hne =>
    cases ha : anchorMsg m d with
    | none => rw [ha] at h; simp at h
    | some a =>
      rw [ha] at h
      by_cases hd : m.lastContinuationTimestamp = some a.timestamp
      · simp only [if_pos hd] at h
        exact absurd rfl h
      · exact ⟨a, hne, rfl, hd⟩

/-- Live-mode state with a full-looking two-row DESC window and no recorded
continuation timestamp. -/
def csLiveTwo : Manager :=
  mkManager ScrollMode.live none [msg2, msg1] [msg1, msg2] Dir.DESC 20 none false

/-- Provider outcome of the forward catch-up continuation from `csCaughtUp`:
one row fetched (fewer than the limit), then the canonical live query returns
both rows. -/
def outCaughtUp : ProviderOutcome := ProviderOutcome.ok [msg2] [msg2, msg1]

/-- Counterexample to C6 as stated: from `csCaughtUp`, two consecutive
`loadMore('forward')` calls both derive the anchor timestamp 10 (the same
continuation cursor: `timestamp >= 10 ORDER BY timestamp ASC`), yet the first
cycle transitions to live mode — clearing the dedup timestamp and already
issuing two provider queries — and the second call then passes every guard and
issues another `updateSelection` instead of short-circuiting. -/
theorem claim_C6_counterexample :
    anchorTs csCaughtUp PageDir.forward = some 10 ∧
    anchorTs (loadMore csCaughtUp PageDir.forward outCaughtUp).1 PageDir.forward
      = some 10 ∧
    (loadMore csCaughtUp PageDir.forward outCaughtUp).2.length = 2 ∧
    (loadMoreBegin (loadMore csCaughtUp PageDir.forward outCaughtUp).1
      PageDir.forward).2.isSome = true := by
  refine ⟨by decide, ?_, ?_, ?_⟩ <;>
    (norm_num [loadMore, loadMoreBegin, loadMoreSuccess, setLiveMode,
      refreshMessages, messagesChanged, atLatest, anchorMsg, anchorTs, pageMode,
      csCaughtUp, mkManager, outCaughtUp, msg1, msg2, computeLimit_eq_20];
     decide)

/-- C6 amended: for two consecutive `loadMore` calls in the same direction
deriving the same anchor timestamp, provided the first cycle does not
transition to live mode (the transition clears the dedup timestamp), the first
call issues exactly one provider query and the second call short-circuits to a
no-op: no state change and no `updateSelection` call. -/
theorem claim_C6_amended (m : Manager) (d : PageDir) (out₁ out₂ : ProviderOutcome)
    (a : Msg)
    (hne : m.messages.length ≠ 0) (ha : anchorMsg m d = some a)
    (hdedup : m.lastContinuationTimestamp ≠ some a.timestamp)
    (hnl : (loadMore m d out₁).1.mode ≠ ScrollMode.live)
    (hsame : anchorTs (loadMore m d out₁).1 d = anchorTs m d) :
    (loadMore m d out₁).2.length = 1 ∧
    loadMore (loadMore m d out₁).1 d out₂ = ((loadMore m d out₁).1, []) := by
  have hbegin := loadMoreBegin_proceeds m d a hne ha hdedup
  have hanchor_m : anchorTs m d = some a.timestamp := by
    unfold anchorTs; rw [ha]; rfl
  have key : (loadMore m d out₁).1.lastContinuationTimestamp = some a.timestamp ∧
      (loadMore m d out₁).2 = [beginSel m d a] := by
    cases out₁ with
    | fail =>
      simp only [loadMore, hbegin, loadMoreFail]
      exact ⟨by simp [beginState], by simp⟩
    | ok fetched li =>
      by_cases hA : atLatest (refreshMessages { beginState m d a with
          currentLimit := (beginSel m d a).limit
          currentDirection := (beginSel m d a).order } fetched)
      · exfalso
        apply hnl
        simp only [loadMore, hbegin, loadMoreSuccess, if_pos hA]
        simp [setLiveMode_fst_mode]
      · simp only [loadMore, hbegin, loadMoreSuccess, if_neg hA]
        exact ⟨by simp [beginState], by simp⟩
  obtain ⟨hlast₁, hqs⟩ := key
  refine ⟨by rw [hqs]; rfl, ?_⟩
  have hskip := loadMoreBegin_skip (loadMore m d out₁).1 d a.timestamp hlast₁
    (hsame.trans hanchor_m)
  rw [loadMore_of_begin_none _ d out₂ (by rw [hskip]), hskip]

/-- Witness for the amended C6: two consecutive backward calls from
`csLiveTwo`, both anchored at timestamp 5; the first (whose DESC page keeps the
mode at `backward`) issues one query, the second is a no-op. -/
theorem claim_C6_amended_witness :
    (loadMore csLiveTwo PageDir.backward (ProviderOutcome.ok [msg1] [])).2.length
      = 1 ∧
    loadMore (loadMore csLiveTwo PageDir.backward
        (ProviderOutcome.ok [msg1] [])).1 PageDir.backward
        (ProviderOutcome.ok [msg1] []) =
      ((loadMore csLiveTwo PageDir.backward (ProviderOutcome.ok [msg1] [])).1,
       []) :=
  claim_C6_amended csLiveTwo PageDir.backward (ProviderOutcome.ok [msg1] [])
    (ProviderOutcome.ok [msg1] []) msg1 (by decide) rfl (by decide) (by decide)
    (by decide)

/-- Strictly ascending by ordering key (the display direction: newest last). -/
def strictAscTs (l : List Msg) : Prop :=
  l.Chain' (fun x y => x.timestamp < y.timestamp)

/-- Strictly descending by ordering key (the order of a DESC provider page). -/
def strictDescTs (l : List Msg) : Prop :=
  l.Chain' (fun x y => y.timestamp < x.timestamp)

instance (l : List Msg) : Decidable (strictAscTs l) :=
  @List.decidableChain' Msg (fun x y => x.timestamp < y.timestamp)
    (fun _ _ => Int.decLt _ _) l

instance (l : List Msg) : Decidable (strictDescTs l) :=
  @List.decidableChain' Msg (fun x y => y.timestamp < x.timestamp)
    (fun _ _ => Int.decLt _ _) l

/-- Backward-mode state holding a valid DESC provider page (strictly
descending, distinct ids) with no recorded continuation timestamp. -/
def csBackTwo : Manager :=
  mkManager ScrollMode.backward none [msg2, msg1] [msg1, msg2] Dir.DESC 20 none
    false

/-- Counterexample to C7 as stated: `csBackTwo` stores a correctly ordered
DESC page, but the synchronous phase of `loadMore('forward')` flips the mode to
`forward` and recomputes the display cache from the stale DESC page without
reversing it, so the committed (notified) display is strictly descending —
not ordered in forward mode's ascending display direction. -/
theorem claim_C7_counterexample :
    strictDescTs csBackTwo.messages ∧
    (loadMoreBegin csBackTwo PageDir.forward).1.mode = ScrollMode.forward ∧
    (loadMoreBegin csBackTwo PageDir.forward).1.displayMessages = [msg2, msg1] ∧
    ¬ strictAscTs (loadMoreBegin csBackTwo PageDir.forward).1.displayMessages := by
  refine ⟨?_, by decide, by decide, ?_⟩
  · simp [strictDescTs, csBackTwo, mkManager, msg1, msg2, List.chain'_cons,
      List.chain'_singleton]
  · intro hasc
    simp [strictAscTs, loadMoreBegin, csBackTwo, mkManager, anchorMsg, pageMode,
      msg1, msg2, List.chain'_cons, List.chain'_singleton] at hasc

/-- C7 amended: whenever `refreshMessages` actually recomputes the display
cache (the id sequence changed) from provider rows strictly ordered in the
direction the current mode fetches from (DESC for live/backward, ASC for
forward) with pairwise-distinct ids, the displayed window is strictly
ascending by timestamp (newest last) with no duplicate ids: live/backward
display the DESC page reversed, forward keeps the ASC page unchanged.  The
invariant does not extend to the transitional display cache written by the
synchronous phase of a direction-reversing `loadMore` (see the
counterexample). -/
theorem claim_C7_amended (m : Manager) (items : List Msg)
    (hch : messagesChanged items m.messages)
    (hordF : m.mode = ScrollMode.forward → strictAscTs items)
    (hordB : m.mode ≠ ScrollMode.forward → strictDescTs items)
    (hids : (items.map Msg.id).Nodup) :
    strictAscTs (refreshMessages m items).displayMessages ∧
    ((refreshMessages m items).displayMessages.map Msg.id).Nodup := by
  unfold refreshMessages
  rw [if_pos hch]
  by_cases hm : m.mode = ScrollMode.forward
  · simp only [hm, ne_eq, not_true_eq_false, if_neg, ite_false]
    exact ⟨hordF hm, hids⟩
  · simp only [if_pos hm, ne_eq, hm, not_false_eq_true, ite_true]
    constructor
    · exact List.chain'_reverse.mpr (hordB hm)
    · rw [List.map_reverse]
      exact List.nodup_reverse.mpr hids

/-- Witness for the amended C7: refreshing the empty initial state with the
DESC page `[msg2, msg1]` displays `[msg1, msg2]` — strictly ascending, distinct
ids. -/
theorem claim_C7_amended_witness :
    strictAscTs (refreshMessages initManager [msg2, msg1]).displayMessages ∧
    ((refreshMessages initManager [msg2, msg1]).displayMessages.map
      Msg.id).Nodup :=
  claim_C7_amended initManager [msg2, msg1] (by decide)
    (fun h => absurd h (by decide))
    (fun _ => by
      simp [strictDescTs, msg1, msg2, List.chain'_cons, List.chain'_singleton])
    (by decide)

/-- Witness for C8 at the backward direction (the outcome argument is
irrelevant since no query is ever issued). -/
theorem claim_C8_empty_feed_witness :
    initManager.mode = ScrollMode.live ∧
    shouldAutoScroll initManager ∧
    refreshMessages initManager [] = initManager ∧
    loadMore initManager PageDir.backward ProviderOutcome.fail =
      (initManager, []) :=
  claim_C8_empty_feed PageDir.backward ProviderOutcome.fail
